import Mathlib

/-!
Verification of the WAMP Application Page web service (`crossbar/webservice/wap.py`).

The file shallowly embeds the `WapResource` class: its construction-time state
(route table, session cache, default session), the `render_GET` dispatch
pipeline, the deferred callbacks `_after_call_success` / `_after_call_error`,
and the error renderer `_render_error`.  External collaborators are modelled at
their documented interfaces:

* werkzeug route matching (`MapAdapter.match`) is modelled as a function over a
  route table whose patterns are lists of fixed and variable segments; it
  returns `matched`, `noRoute` (the `NotFound` exception) or `methodNotAllowed`
  (the `MethodNotAllowed` exception);
* jinja2 template rendering (`Environment(..., autoescape=True)`) is modelled
  over templates that are lists of literal and variable parts; rendering a
  mapping substitutes (HTML-escaped) values, rendering a non-mapping raises;
* the twisted request object is modelled by a trace of the observable actions
  performed on it (`setResponseCode`, `write`, `finish`, plus the WAMP-side
  effects `call` and `registerSession`); the twisted `Request.render` wrapper
  that writes and finishes a returned body (or runs `processingFailed` on an
  escaping exception) is modelled by `finishActions`, and its method dispatch
  — including the retry of a HEAD request as a fake GET when the resource
  defines only `render_GET` — by `processRequest`.

Bytes values (cookies, bodies) are modelled as `String`.
-/

namespace Wap

/-- HTML escaping of a single character, as in `werkzeug.utils.escape`
(also the behaviour of jinja2 autoescaping). -/
def escapeChar (c : Char) : String :=
  if c = '&' then "&amp;"
  else if c = '<' then "&lt;"
  else if c = '>' then "&gt;"
  else if c = Char.ofNat 39 then "&#39;"
  else if c = Char.ofNat 34 then "&#34;"
  else String.singleton c

/-- HTML escaping of a string (`werkzeug.utils.escape`). -/
def escape (s : String) : String :=
  String.join (s.toList.map escapeChar)

/-- One part of a jinja2 template: literal text or a variable substitution. -/
inductive TemplatePart
  | lit (s : String)
  | var (name : String)
deriving DecidableEq, Repr

/-- A compiled jinja2 template (`env.get_template(route[\x27render\x27])`). -/
abbrev Template := List TemplatePart

/-- The value a WAMP call resolves with: either a mapping (rendered through the
template) or a non-mapping value, carrying the text that `type(result)`
formats to and the text of the exception that rendering it raises. -/
inductive WampResult
  | mapping (kvs : List (String × String))
  | nonMapping (tyName excText : String)
deriving DecidableEq, Repr

/-- The text `type(result)` formats to, interpolated into the render-error
message of `_after_call_success`. -/
def typeNameOf : WampResult → String
  | WampResult.mapping _ => "dict"
  | WampResult.nonMapping ty _ => ty

/-- Rendering a template over a result mapping: literal parts are copied,
variable parts are replaced by the (auto-escaped) value bound to the name in
the mapping, or empty when unbound (jinja2 default `Undefined`). -/
def renderMapping (t : Template) (kvs : List (String × String)) : String :=
  String.join (t.map fun p =>
    match p with
    | TemplatePart.lit s => s
    | TemplatePart.var n => escape ((((kvs.find? fun kv => kv.1 == n)).map Prod.snd).getD ""))

/-- `request.template.render(result)`: succeeds on a mapping, raises on a
non-mapping result (the `Exception` caught in `_after_call_success`). -/
def renderTemplate (t : Template) (r : WampResult) : Except String String :=
  match r with
  | WampResult.mapping kvs => Except.ok (renderMapping t kvs)
  | WampResult.nonMapping _ exc => Except.error exc

/-- A segment of a werkzeug URL rule: a fixed path segment, or a variable
segment that captures the request segment under a name. -/
inductive Seg
  | fixed (s : String)
  | cap (name : String)
deriving DecidableEq, Repr

/-- One entry of the route table built in `WapResource.__init__`: the rule
pattern, the single HTTP method of the rule, and the endpoint pair
`(route[\x27call\x27], env.get_template(route[\x27render\x27]))`. -/
structure Route where
  pattern : List Seg
  method : String
  procedure : String
  template : Template
deriving DecidableEq, Repr

/-- Matching one rule pattern against a request path (both as segment lists);
returns the captured path variables on success. -/
def matchPattern : List Seg → List String → Option (List (String × String))
  | [], [] => some []
  | Seg.fixed s :: ps, x :: xs => if x = s then matchPattern ps xs else none
  | Seg.cap n :: ps, x :: xs => (matchPattern ps xs).map (fun kw => (n, x) :: kw)
  | _, _ => none

/-- Outcome of `self._map_adapter.match(full_path)` (werkzeug
`MapAdapter.match`, implicit method GET): a matched endpoint with path
variables, `NotFound`, or `MethodNotAllowed`. -/
inductive MatchOutcome
  | matched (procedure : String) (template : Template) (kwargs : List (String × String))
  | noRoute
  | methodNotAllowed
deriving DecidableEq, Repr

/-- werkzeug `MapAdapter.match` semantics over the route table: the first rule
whose pattern matches the path and whose method list contains the request
method wins; if some rule matches the path but none matches the method,
`MethodNotAllowed` is raised; if no rule matches the path, `NotFound`. -/
def findMatch (routes : List Route) (method : String) (path : List String) : MatchOutcome :=
  let pathMatches := routes.filterMap fun r => (matchPattern r.pattern path).map fun kw => (r, kw)
  match pathMatches.find? fun rk => rk.1.method == method with
  | some rk => MatchOutcome.matched rk.1.procedure rk.1.template rk.2
  | none => if pathMatches.isEmpty then MatchOutcome.noRoute else MatchOutcome.methodNotAllowed

/-- The observable actions `render_GET` and its callbacks perform: on the
twisted request (`setResponseCode`, `write`, `finish`) and on the WAMP side
(`call` for `session.call`, `registerSession` for
`worker._router_session_factory.add(session, authrole=...)` on a session
created with `ComponentConfig(realm=realm)`). -/
inductive Action
  | setResponseCode (n : Nat)
  | write (body : String)
  | finish
  | call (procedure : String) (kwargs : List (String × String))
  | registerSession (sid : Nat) (realm : String) (role : String)
deriving DecidableEq, Repr

/-- The state of a `WapResource`: configured realm, route table, the default
(anonymous) session created in `__init__`, the `_session_cache` dict (most
recent binding first, as an association list), and the next fresh session id. -/
structure ResourceState where
  realm : String
  routes : List Route
  defaultSession : Nat
  sessionCache : List (String × Nat)
  nextId : Nat
deriving DecidableEq, Repr

/-- `WapResource.__init__` session part: creates and registers the default
anonymous session (id 0) and starts with an empty session cache. -/
def initState (realm : String) (routes : List Route) : ResourceState × List Action :=
  ({ realm := realm, routes := routes, defaultSession := 0, sessionCache := [], nextId := 1 },
   [Action.registerSession 0 realm "anonymous"])

/-- An inbound HTTP request as the resource sees it: method, the value of the
`session_cookie` cookie when the header carried one, and the URI path split
into segments. -/
structure Request where
  method : String
  cookie : Option String
  path : List String
deriving DecidableEq, Repr

/-- Session resolution, lines 185-204 of `render_GET`.  Mirrors the Python
truthiness test `if cookie:`: an absent cookie or an empty cookie value falls
back on the default session; a cached token returns the cached session; an
uncached non-empty token creates a session bound to the configured realm,
registers it with authrole anonymous, stores it under the token and returns
it. -/
def resolveSession (st : ResourceState) (cookie : Option String) :
    Nat × ResourceState × List Action :=
  match cookie with
  | none => (st.defaultSession, st, [])
  | some tok =>
    if tok = "" then (st.defaultSession, st, [])
    else
      match st.sessionCache.find? fun kv => kv.1 == tok with
      | some kv => (kv.2, st, [])
      | none =>
        (st.nextId,
         { st with sessionCache := (tok, st.nextId) :: st.sessionCache, nextId := st.nextId + 1 },
         [Action.registerSession st.nextId st.realm "anonymous"])

/-- How `render_GET` returns to twisted: a body (twisted writes it and
finishes), `server.NOT_DONE_YET` (the deferred callbacks finish), or an
escaping exception (twisted runs `processingFailed`). -/
inductive RenderResult
  | body (b : String)
  | notDoneYet
  | raised
deriving DecidableEq, Repr

/-- Behaviour of `session.call(procedure, **kwargs)`: a deferred that fires
the callback or the errback (`error.value.error` is the errback text), or a
synchronous raise (caught by the `except Exception` clause). -/
inductive CallBehavior
  | async (outcome : Except String WampResult)
  | raises
deriving Repr

/-- The fixed HTML error shell of `_render_error`, before the escaped
message. -/
def errPre : String :=
  "\n            <html>\n                <title>API Error</title>\n                <body>\n                    <h3 style=\x22color: #f00\x22>Crossbar WAMP Application Page Error</h3>\n                    <pre>"

/-- The fixed HTML error shell of `_render_error`, after the escaped
message. -/
def errPost : String :=
  "</pre>\n                </body>\n            </html>\n        "

/-- `WapResource._render_error`: the fixed HTML shell with the HTML-escaped
message interpolated. -/
def renderError (message : String) : String :=
  errPre ++ escape message ++ errPost

/-- `WapResource._after_call_success`: try to render the result through the
matched template; on a render exception set status 500 and write the error
shell with a message naming the result type and the exception text; on
success write the rendered HTML; in both cases finish the request. -/
def afterCallSuccess (t : Template) (result : WampResult) : List Action :=
  match renderTemplate t result with
  | Except.ok html => [Action.write html, Action.finish]
  | Except.error e =>
    [Action.setResponseCode 500,
     Action.write (renderError
       ("WabResource render error for WAMP result of type \x22" ++ typeNameOf result ++ "\x22: " ++ e)),
     Action.finish]

/-- `WapResource._after_call_error`: set status 500, write the error shell
with the failure text, finish the request. -/
def afterCallError (errText : String) : List Action :=
  [Action.setResponseCode 500, Action.write (renderError errText), Action.finish]

/-- The rest of `render_GET` after session resolution (lines 202-244),
parametric in the resolved session so that the defensively-checked
`if not session:` branch (lines 202-204) is expressible.  Returns the actions
performed synchronously (plus, for a matched route, the actions the deferred
callbacks perform when the call completes) and the value returned to
twisted. -/
def handleWithSession (st : ResourceState) (session : Option Nat)
    (req : Request) (cb : CallBehavior) : List Action × RenderResult :=
  match session with
  | none =>
    ([], RenderResult.body (renderError "could not call procedure - no session"))
  | some _ =>
    match findMatch st.routes "GET" req.path with
    | MatchOutcome.matched procedure t kwargs =>
      match cb with
      | CallBehavior.async outcome =>
        (Action.call procedure kwargs ::
          (match outcome with
           | Except.ok r => afterCallSuccess t r
           | Except.error e => afterCallError e),
         RenderResult.notDoneYet)
      | CallBehavior.raises =>
        ([Action.setResponseCode 500,
          Action.write (renderError "unknown error [werkzeug.routing.MapAdapter.match]")],
         RenderResult.raised)
    | MatchOutcome.noRoute =>
      ([Action.setResponseCode 404],
       RenderResult.body (renderError "path not found [werkzeug.routing.MapAdapter.match]"))
    | MatchOutcome.methodNotAllowed =>
      ([Action.setResponseCode 511],
       RenderResult.body (renderError "method not allowed [werkzeug.routing.MapAdapter.match]"))

/-- `WapResource.render_GET`: resolve the session from the cookie (this
happens first, lines 185-204), then match the route and dispatch.  Returns
the updated resource state, the action trace, and the value returned to
twisted. -/
def render_GET (st : ResourceState) (req : Request) (cb : CallBehavior) :
    ResourceState × List Action × RenderResult :=
  let r := resolveSession st req.cookie
  let h := handleWithSession r.2.1 (some r.1) req cb
  (r.2.1, r.2.2 ++ h.1, h.2)

/-- The body twisted writes from `Request.processingFailed` when a render
handler raises (`displayTracebacks` off). -/
def processingFailedBody : String :=
  "<html><head><title>Processing Failed</title></head><body><b>Processing Failed</b></body></html>"

/-- The twisted `Request.render` wrapper around the value a resource render
method returns: a returned body is written and the request finished;
`NOT_DONE_YET` leaves finishing to the callbacks; an escaping exception runs
`processingFailed`, which sets status 500, writes an error page and finishes
the request. -/
def finishActions : RenderResult → List Action
  | RenderResult.body b => [Action.write b, Action.finish]
  | RenderResult.notDoneYet => []
  | RenderResult.raised =>
    [Action.setResponseCode 500, Action.write processingFailedBody, Action.finish]

/-- A full GET request lifecycle: `render_GET` plus the twisted wrapper.
Returns the updated resource state and the complete action trace. -/
def processGet (st : ResourceState) (req : Request) (cb : CallBehavior) :
    ResourceState × List Action :=
  let g := render_GET st req cb
  (g.1, g.2.1 ++ finishActions g.2.2)

/-- The methods twisted `Request.render` treats as supported when a resource
raises `UnsupportedMethod`: a supported one gets a 405 error page, any other
a 501 error page. -/
def twistedSupportedMethods : List String := ["GET", "HEAD", "POST"]

/-- The body of the twisted `ErrorPage` that `Request.render` writes for an
unsupported method (contents immaterial to the resource under study). -/
def unsupportedMethodBody : String :=
  "<html><head><title>Method Not Allowed</title></head><body>I do not allow that method here.</body></html>"

/-- A full request lifecycle through twisted `Request.render` method
dispatch.  `WapResource` defines only `render_GET`, so `Resource.render`
raises `UnsupportedMethod(allowedMethods=[GET])` for every other method, and
`Request.render` catches it:

* a GET request runs the pipeline (`processGet`);
* a HEAD request is retried as a fake GET (RFC 2616 5.1.1: `Request.render`
  sets the method to GET and re-invokes `resrc.render`), so the pipeline DOES
  run — route matching, session resolution and the remote call all happen; a
  synchronously returned body is discarded (`write` of the empty string, then
  finish), `NOT_DONE_YET` leaves finishing to the callbacks, and an escaping
  exception runs `processingFailed`;
* any other method never reaches the resource: `Request.render` writes a 405
  (twisted-supported method) or 501 (otherwise) error page and finishes. -/
def processRequest (st : ResourceState) (req : Request) (cb : CallBehavior) :
    ResourceState × List Action :=
  if req.method = "GET" then
    processGet st req cb
  else if req.method = "HEAD" then
    let g := render_GET st { req with method := "GET" } cb
    match g.2.2 with
    | RenderResult.notDoneYet => (g.1, g.2.1)
    | RenderResult.body _ => (g.1, g.2.1 ++ [Action.write "", Action.finish])
    | RenderResult.raised =>
      (g.1, g.2.1 ++
        [Action.setResponseCode 500, Action.write processingFailedBody, Action.finish])
  else
    (st,
     [Action.setResponseCode (if req.method ∈ twistedSupportedMethods then 405 else 501),
      Action.write unsupportedMethodBody, Action.finish])

/-- The response actions of a pipeline continuation: its own actions plus the
twisted wrapper on its return value. -/
def responseOf (pr : List Action × RenderResult) : List Action :=
  pr.1 ++ finishActions pr.2

/-- Number of `finish` calls in a trace. -/
def finishCount : List Action → Nat
  | [] => 0
  | Action.finish :: rest => finishCount rest + 1
  | Action.setResponseCode _ :: rest => finishCount rest
  | Action.write _ :: rest => finishCount rest
  | Action.call _ _ :: rest => finishCount rest
  | Action.registerSession _ _ _ :: rest => finishCount rest

/-- The bodies written to the request, in order. -/
def writesOf : List Action → List String
  | [] => []
  | Action.write b :: rest => b :: writesOf rest
  | Action.setResponseCode _ :: rest => writesOf rest
  | Action.finish :: rest => writesOf rest
  | Action.call _ _ :: rest => writesOf rest
  | Action.registerSession _ _ _ :: rest => writesOf rest

/-- The WAMP calls issued in a trace, in order. -/
def callsOf : List Action → List (String × List (String × String))
  | [] => []
  | Action.call p k :: rest => (p, k) :: callsOf rest
  | Action.setResponseCode _ :: rest => callsOf rest
  | Action.write _ :: rest => callsOf rest
  | Action.finish :: rest => callsOf rest
  | Action.registerSession _ _ _ :: rest => callsOf rest

/-- The sessions registered with the router session factory in a trace. -/
def regsOf : List Action → List (Nat × String × String)
  | [] => []
  | Action.registerSession i r ro :: rest => (i, r, ro) :: regsOf rest
  | Action.setResponseCode _ :: rest => regsOf rest
  | Action.write _ :: rest => regsOf rest
  | Action.finish :: rest => regsOf rest
  | Action.call _ _ :: rest => regsOf rest

/-- The status line actually sent: the last `setResponseCode` before the
first `write` (headers are flushed on the first write), defaulting to the
twisted initial code. -/
def sentStatusAux (cur : Nat) : List Action → Nat
  | [] => cur
  | Action.setResponseCode n :: rest => sentStatusAux n rest
  | Action.write _ :: _ => cur
  | Action.finish :: rest => sentStatusAux cur rest
  | Action.call _ _ :: rest => sentStatusAux cur rest
  | Action.registerSession _ _ _ :: rest => sentStatusAux cur rest

/-- The status sent for a trace, starting from the twisted default 200. -/
def sentStatus (acts : List Action) : Nat := sentStatusAux 200 acts

/-- The full body sent for a trace: the concatenation of all writes. -/
def sentBody : List Action → String
  | [] => ""
  | Action.write b :: rest => b ++ sentBody rest
  | Action.setResponseCode _ :: rest => sentBody rest
  | Action.finish :: rest => sentBody rest
  | Action.call _ _ :: rest => sentBody rest
  | Action.registerSession _ _ _ :: rest => sentBody rest

/-- A concrete template: the literal `Hello ` followed by the variable
`name` (the spec's `Hello` template example written as parts). -/
def tplHello : Template := [TemplatePart.lit "Hello ", TemplatePart.var "name"]

/-- A concrete GET route. -/
def routeHello : Route :=
  { pattern := [Seg.fixed "greet"], method := "GET",
    procedure := "com.example.greet", template := tplHello }

/-- A concrete route whose configured method is POST. -/
def routePost : Route :=
  { pattern := [Seg.fixed "submit"], method := "POST",
    procedure := "com.example.submit", template := tplHello }

/-- A concrete resource with one GET route and one POST route. -/
def st0 : ResourceState := (initState "realm1" [routeHello, routePost]).1

/-- A concrete resource with no routes. -/
def stEmpty : ResourceState := (initState "realm1" []).1

/-- A GET request without a session cookie, matching `routeHello`. -/
def reqGreet : Request := { method := "GET", cookie := none, path := ["greet"] }

/-- A GET request without a session cookie, matching no route of `st0`. -/
def reqNowhere : Request := { method := "GET", cookie := none, path := ["nowhere"] }

/-- A GET request to the path of the POST-only route of `st0`. -/
def reqSubmit : Request := { method := "GET", cookie := none, path := ["submit"] }

/-- A GET request with a fresh session cookie, matching no route. -/
def reqTok : Request := { method := "GET", cookie := some "tok", path := ["nowhere"] }

/-- A POST request to the path of the POST-only route of `st0`. -/
def reqPost : Request := { method := "POST", cookie := some "tok", path := ["submit"] }

/-- A HEAD request with a fresh session cookie to the path of the GET route
of `st0`. -/
def reqHead : Request := { method := "HEAD", cookie := some "tok", path := ["greet"] }

/-- A call behaviour whose deferred fires the errback. -/
def cbErr : CallBehavior := CallBehavior.async (Except.error "e")

theorem finishCount_append (l1 l2 : List Action) :
    finishCount (l1 ++ l2) = finishCount l1 + finishCount l2 := by
  induction l1 with
  | nil => simp [finishCount]
  | cons a rest ih => cases a <;> simp [finishCount, ih] <;> omega

theorem resolve_acts (st : ResourceState) (c : Option String) :
    (resolveSession st c).2.2 = [] ∨
    (resolveSession st c).2.2 = [Action.registerSession st.nextId st.realm "anonymous"] := by
  unfold resolveSession
  cases c with
  | none => exact Or.inl rfl
  | some tok =>
    by_cases h : tok = ""
    · simp [h]
    · simp only [h, if_false]
      cases hf : st.sessionCache.find? fun kv => kv.1 == tok <;> simp

theorem resolve_state_routes (st : ResourceState) (c : Option String) :
    (resolveSession st c).2.1.routes = st.routes := by
  unfold resolveSession
  cases c with
  | none => rfl
  | some tok =>
    by_cases h : tok = ""
    · simp [h]
    · simp only [h, if_false]
      cases hf : st.sessionCache.find? fun kv => kv.1 == tok <;> simp

theorem sentStatus_resolve (st : ResourceState) (c : Option String) (l : List Action) :
    sentStatus ((resolveSession st c).2.2 ++ l) = sentStatus l := by
  rcases resolve_acts st c with h | h <;> rw [h] <;> simp [sentStatus, sentStatusAux]

theorem sentBody_resolve (st : ResourceState) (c : Option String) (l : List Action) :
    sentBody ((resolveSession st c).2.2 ++ l) = sentBody l := by
  rcases resolve_acts st c with h | h <;> rw [h] <;> simp [sentBody]

theorem callsOf_resolve (st : ResourceState) (c : Option String) (l : List Action) :
    callsOf ((resolveSession st c).2.2 ++ l) = callsOf l := by
  rcases resolve_acts st c with h | h <;> rw [h] <;> simp [callsOf]

theorem finishCount_resolve (st : ResourceState) (c : Option String) (l : List Action) :
    finishCount ((resolveSession st c).2.2 ++ l) = finishCount l := by
  rcases resolve_acts st c with h | h <;> rw [h] <;> simp [finishCount]

theorem processGet_acts (st : ResourceState) (req : Request) (cb : CallBehavior) :
    (processGet st req cb).2 =
      (resolveSession st req.cookie).2.2 ++
        responseOf (handleWithSession (resolveSession st req.cookie).2.1
          (some (resolveSession st req.cookie).1) req cb) := by
  simp [processGet, render_GET, responseOf, List.append_assoc]

theorem processGet_state (st : ResourceState) (req : Request) (cb : CallBehavior) :
    (processGet st req cb).1 = (resolveSession st req.cookie).2.1 := rfl

theorem handle_noRoute (st : ResourceState) (sid : Nat) (req : Request) (cb : CallBehavior)
    (h : findMatch st.routes "GET" req.path = MatchOutcome.noRoute) :
    handleWithSession st (some sid) req cb =
      ([Action.setResponseCode 404],
       RenderResult.body (renderError "path not found [werkzeug.routing.MapAdapter.match]")) := by
  simp only [handleWithSession, h]

theorem handle_methodNA (st : ResourceState) (sid : Nat) (req : Request) (cb : CallBehavior)
    (h : findMatch st.routes "GET" req.path = MatchOutcome.methodNotAllowed) :
    handleWithSession st (some sid) req cb =
      ([Action.setResponseCode 511],
       RenderResult.body (renderError "method not allowed [werkzeug.routing.MapAdapter.match]")) := by
  simp only [handleWithSession, h]

theorem handle_matched_ok (st : ResourceState) (sid : Nat) (req : Request)
    (p : String) (t : Template) (kw : List (String × String)) (r : WampResult)
    (h : findMatch st.routes "GET" req.path = MatchOutcome.matched p t kw) :
    handleWithSession st (some sid) req (CallBehavior.async (Except.ok r)) =
      (Action.call p kw :: afterCallSuccess t r, RenderResult.notDoneYet) := by
  simp only [handleWithSession, h]

theorem handle_matched_err (st : ResourceState) (sid : Nat) (req : Request)
    (p : String) (t : Template) (kw : List (String × String)) (e : String)
    (h : findMatch st.routes "GET" req.path = MatchOutcome.matched p t kw) :
    handleWithSession st (some sid) req (CallBehavior.async (Except.error e)) =
      (Action.call p kw :: afterCallError e, RenderResult.notDoneYet) := by
  simp only [handleWithSession, h]

theorem handle_matched_raises (st : ResourceState) (sid : Nat) (req : Request)
    (p : String) (t : Template) (kw : List (String × String))
    (h : findMatch st.routes "GET" req.path = MatchOutcome.matched p t kw) :
    handleWithSession st (some sid) req CallBehavior.raises =
      ([Action.setResponseCode 500,
        Action.write (renderError "unknown error [werkzeug.routing.MapAdapter.match]")],
       RenderResult.raised) := by
  simp only [handleWithSession, h]

theorem finishCount_handle (st : ResourceState) (sid : Nat) (req : Request) (cb : CallBehavior) :
    finishCount (responseOf (handleWithSession st (some sid) req cb)) = 1 := by
  cases hm : findMatch st.routes "GET" req.path with
  | matched p t kw =>
    cases cb with
    | async outcome =>
      cases outcome with
      | ok r =>
        rw [handle_matched_ok st sid req p t kw r hm]
        cases r <;>
          simp [responseOf, afterCallSuccess, renderTemplate, finishActions, finishCount]
      | error e =>
        rw [handle_matched_err st sid req p t kw e hm]
        simp [responseOf, afterCallError, finishActions, finishCount]
    | raises =>
      rw [handle_matched_raises st sid req p t kw hm]
      simp [responseOf, finishActions, finishCount]
  | noRoute =>
    rw [handle_noRoute st sid req cb hm]
    simp [responseOf, finishActions, finishCount]
  | methodNotAllowed =>
    rw [handle_methodNA st sid req cb hm]
    simp [responseOf, finishActions, finishCount]

/-- C1: the defensively-checked no-session branch (lines 202-204) does NOT
respond with status 500 as claimed: it returns the rendered error body without
ever calling `setResponseCode`, so the response goes out with the default
status 200.  This theorem is the amended claim: for every request and call
behaviour, the `SessionUnavailable` branch produces the rendered
`could not call procedure - no session` error body with sent status 200. -/
theorem C1_noSession_default_status (st : ResourceState) (req : Request) (cb : CallBehavior) :
    sentStatus (responseOf (handleWithSession st none req cb)) = 200 ∧
    sentBody (responseOf (handleWithSession st none req cb)) =
      renderError "could not call procedure - no session" := by
  constructor
  · rfl
  · simp [handleWithSession, responseOf, finishActions, sentBody]

/-- C1 counterexample: at a concrete request, the no-session branch sends
status 200, not 500 as the claim states. -/
theorem C1_counterexample :
    sentStatus (responseOf (handleWithSession st0 none reqGreet cbErr)) = 200 ∧
    sentStatus (responseOf (handleWithSession st0 none reqGreet cbErr)) ≠ 500 := by
  decide

/-- C2: every request entering the dispatch pipeline issues the
response-termination call (`request.finish`) exactly once, on every path:
success, routing failure (404/511 bodies finished by twisted), remote-call
failure, render failure, and the re-raising unexpected-exception path
(finished by twisted `processingFailed`). -/
theorem C2_finish_exactly_once (st : ResourceState) (req : Request) (cb : CallBehavior) :
    finishCount (processGet st req cb).2 = 1 := by
  rw [processGet_acts, finishCount_resolve]
  exact finishCount_handle _ _ _ _

/-- C3 counterexample: a request with a fresh session token whose path matches
no route still creates and registers a session (resolution runs before
matching), refuting the claim that an unmatched request never triggers
session-registry lookup, creation, or registration. -/
theorem C3_counterexample :
    regsOf (processGet stEmpty reqTok cbErr).2 = [(1, "realm1", "anonymous")] ∧
    sentStatus (processGet stEmpty reqTok cbErr).2 = 404 := by
  decide

/-- C3 amended: `render_GET` performs session resolution BEFORE route
matching (Received, Resolving, Matching, Calling); a request carrying a fresh
token whose path matches no route still registers a new anonymous session and
caches it, its first trace action being that registration, while the response
is the 404 error with no remote call issued. -/
theorem C3_resolution_precedes_matching (st : ResourceState) (req : Request) (cb : CallBehavior)
    (tok : String) (h1 : req.cookie = some tok) (h2 : tok ≠ "")
    (h3 : (st.sessionCache.find? fun kv => kv.1 == tok) = none)
    (h4 : findMatch st.routes "GET" req.path = MatchOutcome.noRoute) :
    (∃ rest, (processGet st req cb).2 =
        Action.registerSession st.nextId st.realm "anonymous" :: rest) ∧
    regsOf (processGet st req cb).2 = [(st.nextId, st.realm, "anonymous")] ∧
    (processGet st req cb).1.sessionCache = (tok, st.nextId) :: st.sessionCache ∧
    sentStatus (processGet st req cb).2 = 404 ∧
    callsOf (processGet st req cb).2 = [] := by
  have hres : resolveSession st req.cookie =
      (st.nextId,
       { st with sessionCache := (tok, st.nextId) :: st.sessionCache, nextId := st.nextId + 1 },
       [Action.registerSession st.nextId st.realm "anonymous"]) := by
    rw [h1]
    simp [resolveSession, h2, h3]
  have hh := handle_noRoute (resolveSession st req.cookie).2.1
    (resolveSession st req.cookie).1 req cb (by rw [resolve_state_routes]; exact h4)
  refine ⟨?_, ?_, ?_, ?_, ?_⟩
  · rw [processGet_acts, hh, hres]
    exact ⟨_, rfl⟩
  · rw [processGet_acts, hh, hres]
    simp [regsOf, responseOf, finishActions]
  · rw [processGet_state, hres]
  · rw [processGet_acts, sentStatus_resolve, hh]
    simp [responseOf, finishActions, sentStatus, sentStatusAux]
  · rw [processGet_acts, callsOf_resolve, hh]
    simp [callsOf, responseOf, finishActions]

/-- C3 witness: the amended theorem at the concrete empty-route resource and
a fresh token. -/
theorem C3_witness :
    (∃ rest, (processGet stEmpty reqTok cbErr).2 =
        Action.registerSession stEmpty.nextId stEmpty.realm "anonymous" :: rest) ∧
    regsOf (processGet stEmpty reqTok cbErr).2 =
      [(stEmpty.nextId, stEmpty.realm, "anonymous")] ∧
    (processGet stEmpty reqTok cbErr).1.sessionCache =
      ("tok", stEmpty.nextId) :: stEmpty.sessionCache ∧
    sentStatus (processGet stEmpty reqTok cbErr).2 = 404 ∧
    callsOf (processGet stEmpty reqTok cbErr).2 = [] :=
  C3_resolution_precedes_matching stEmpty reqTok cbErr "tok" rfl (by decide) rfl (by decide)

/-- C4 counterexample: a request that carries the `session_cookie` header
with an EMPTY value has a present, uncached token, yet the code (the Python
truthiness test `if cookie:`) returns the shared default handle, registers
nothing and stores nothing, refuting the claim that a present-but-uncached
token always gets a freshly created and registered handle. -/
theorem C4_counterexample :
    resolveSession stEmpty (some "") = (stEmpty.defaultSession, stEmpty, []) ∧
    regsOf (resolveSession stEmpty (some "")).2.2 = [] ∧
    (resolveSession stEmpty (some "")).2.1.sessionCache = [] := by
  decide

/-- C4 amended: the resolve contract with an empty token treated like an
absent one (Python truthiness of the cookie value): an absent or empty cookie
yields the shared default handle with no registration and no cache change; a
non-empty cached token yields the cached handle with no registration; a
non-empty uncached token yields a fresh handle bound to the configured realm,
registered with role anonymous and stored under the token. -/
theorem C4_resolve_contract (st : ResourceState) (tok : String) (kv : String × Nat) :
    (resolveSession st none = (st.defaultSession, st, [])) ∧
    (resolveSession st (some "") = (st.defaultSession, st, [])) ∧
    (tok ≠ "" → (st.sessionCache.find? fun p => p.1 == tok) = some kv →
      resolveSession st (some tok) = (kv.2, st, [])) ∧
    (tok ≠ "" → (st.sessionCache.find? fun p => p.1 == tok) = none →
      resolveSession st (some tok) =
        (st.nextId,
         { st with sessionCache := (tok, st.nextId) :: st.sessionCache,
                   nextId := st.nextId + 1 },
         [Action.registerSession st.nextId st.realm "anonymous"])) := by
  refine ⟨rfl, by simp [resolveSession], fun h2 h3 => ?_, fun h2 h3 => ?_⟩ <;>
    simp [resolveSession, h2, h3]

/-- C4 witness: the fresh-token case of the amended contract at a concrete
resource: a new session is created, registered as anonymous in the configured
realm, and stored under the token. -/
theorem C4_witness :
    resolveSession stEmpty (some "t") =
      (stEmpty.nextId,
       { stEmpty with sessionCache := ("t", stEmpty.nextId) :: stEmpty.sessionCache,
                      nextId := stEmpty.nextId + 1 },
       [Action.registerSession stEmpty.nextId stEmpty.realm "anonymous"]) :=
  (C4_resolve_contract stEmpty "t" ("", 0)).2.2.2 (by decide) (by decide)

/-- C5: a request whose path matches no registered route pattern gets status
404 with the rendered error body, and no remote call is ever issued. -/
theorem C5_no_route_404 (st : ResourceState) (req : Request) (cb : CallBehavior)
    (h : findMatch st.routes "GET" req.path = MatchOutcome.noRoute) :
    sentStatus (processGet st req cb).2 = 404 ∧
    sentBody (processGet st req cb).2 =
      renderError "path not found [werkzeug.routing.MapAdapter.match]" ∧
    callsOf (processGet st req cb).2 = [] := by
  have hh := handle_noRoute (resolveSession st req.cookie).2.1
    (resolveSession st req.cookie).1 req cb (by rw [resolve_state_routes]; exact h)
  refine ⟨?_, ?_, ?_⟩
  · rw [processGet_acts, sentStatus_resolve, hh]
    simp [responseOf, finishActions, sentStatus, sentStatusAux]
  · rw [processGet_acts, sentBody_resolve, hh]
    simp [responseOf, finishActions, sentBody]
  · rw [processGet_acts, callsOf_resolve, hh]
    simp [responseOf, finishActions, callsOf]

/-- C5 witness: the no-route theorem at a concrete unmatched path. -/
theorem C5_witness :
    sentStatus (processGet st0 reqNowhere cbErr).2 = 404 ∧
    sentBody (processGet st0 reqNowhere cbErr).2 =
      renderError "path not found [werkzeug.routing.MapAdapter.match]" ∧
    callsOf (processGet st0 reqNowhere cbErr).2 = [] :=
  C5_no_route_404 st0 reqNowhere cbErr (by decide)

/-- C6: evaluating the code at the failing input — a GET request to a path
whose only route is configured for method POST: the code responds with status
511 (Network Authentication Required, a 5xx code, NOT a client-error 4xx
status as the claim and the canonical 405 demand), with the rendered error
body and no remote call. -/
theorem C6_method_mismatch_511 :
    sentStatus (processGet st0 reqSubmit cbErr).2 = 511 ∧
    ¬ (400 ≤ sentStatus (processGet st0 reqSubmit cbErr).2 ∧
        sentStatus (processGet st0 reqSubmit cbErr).2 < 500) ∧
    sentBody (processGet st0 reqSubmit cbErr).2 =
      renderError "method not allowed [werkzeug.routing.MapAdapter.match]" ∧
    callsOf (processGet st0 reqSubmit cbErr).2 = [] := by
  have hh := handle_methodNA (resolveSession st0 reqSubmit.cookie).2.1
    (resolveSession st0 reqSubmit.cookie).1 reqSubmit cbErr
    (by rw [resolve_state_routes]; decide)
  have hs : sentStatus (processGet st0 reqSubmit cbErr).2 = 511 := by
    rw [processGet_acts, sentStatus_resolve, hh]
    simp [responseOf, finishActions, sentStatus, sentStatusAux]
  refine ⟨hs, ?_, ?_, ?_⟩
  · rw [hs]
    omega
  · rw [processGet_acts, sentBody_resolve, hh]
    simp [responseOf, finishActions, sentBody]
  · rw [processGet_acts, callsOf_resolve, hh]
    simp [responseOf, finishActions, callsOf]

/-- C7: a remote call that completes successfully with a result mapping is
answered by the matched template rendered over that mapping with status 200,
the call having been issued with exactly the extracted path variables. -/
theorem C7_success_render (st : ResourceState) (req : Request)
    (p : String) (t : Template) (kw kvs : List (String × String))
    (h : findMatch st.routes "GET" req.path = MatchOutcome.matched p t kw) :
    sentStatus (processGet st req
      (CallBehavior.async (Except.ok (WampResult.mapping kvs)))).2 = 200 ∧
    sentBody (processGet st req
      (CallBehavior.async (Except.ok (WampResult.mapping kvs)))).2 = renderMapping t kvs ∧
    callsOf (processGet st req
      (CallBehavior.async (Except.ok (WampResult.mapping kvs)))).2 = [(p, kw)] := by
  have hh := handle_matched_ok (resolveSession st req.cookie).2.1
    (resolveSession st req.cookie).1 req p t kw (WampResult.mapping kvs)
    (by rw [resolve_state_routes]; exact h)
  refine ⟨?_, ?_, ?_⟩
  · rw [processGet_acts, sentStatus_resolve, hh]
    simp [responseOf, finishActions, afterCallSuccess, renderTemplate,
      sentStatus, sentStatusAux]
  · rw [processGet_acts, sentBody_resolve, hh]
    simp [responseOf, finishActions, afterCallSuccess, renderTemplate, sentBody]
  · rw [processGet_acts, callsOf_resolve, hh]
    simp [responseOf, finishActions, afterCallSuccess, renderTemplate, callsOf]

/-- C7 witness: result mapping `name := Ann` rendered against the `Hello`
template yields body `Hello Ann` and status 200. -/
theorem C7_witness :
    sentStatus (processGet st0 reqGreet
      (CallBehavior.async (Except.ok (WampResult.mapping [("name", "Ann")])))).2 = 200 ∧
    sentBody (processGet st0 reqGreet
      (CallBehavior.async (Except.ok (WampResult.mapping [("name", "Ann")])))).2 = "Hello Ann" ∧
    callsOf (processGet st0 reqGreet
      (CallBehavior.async (Except.ok (WampResult.mapping [("name", "Ann")])))).2 =
      [("com.example.greet", [])] := by
  have h := C7_success_render st0 reqGreet "com.example.greet" tplHello []
    [("name", "Ann")] (by decide)
  exact ⟨h.1, h.2.1.trans (by decide), h.2.2⟩

/-- C8: a remote call that completes with a failure is answered with status
500 and the fixed HTML error shell containing the HTML-escaped error text of
the failure payload. -/
theorem C8_call_failure_500 (st : ResourceState) (req : Request)
    (p : String) (t : Template) (kw : List (String × String)) (err : String)
    (h : findMatch st.routes "GET" req.path = MatchOutcome.matched p t kw) :
    sentStatus (processGet st req (CallBehavior.async (Except.error err))).2 = 500 ∧
    sentBody (processGet st req (CallBehavior.async (Except.error err))).2 =
      renderError err ∧
    (∃ pre post, sentBody (processGet st req (CallBehavior.async (Except.error err))).2 =
      pre ++ escape err ++ post) := by
  have hh := handle_matched_err (resolveSession st req.cookie).2.1
    (resolveSession st req.cookie).1 req p t kw err
    (by rw [resolve_state_routes]; exact h)
  have hbody : sentBody (processGet st req (CallBehavior.async (Except.error err))).2 =
      renderError err := by
    rw [processGet_acts, sentBody_resolve, hh]
    simp [responseOf, finishActions, afterCallError, sentBody]
  refine ⟨?_, hbody, errPre, errPost, ?_⟩
  · rw [processGet_acts, sentStatus_resolve, hh]
    simp [responseOf, finishActions, afterCallError, sentStatus, sentStatusAux]
  · rw [hbody]
    rfl

/-- C8 witness: failure text `boom` yields status 500 and a body that is the
fixed shell around the escaped text `boom`. -/
theorem C8_witness :
    sentStatus (processGet st0 reqGreet (CallBehavior.async (Except.error "boom"))).2 = 500 ∧
    sentBody (processGet st0 reqGreet (CallBehavior.async (Except.error "boom"))).2 =
      renderError "boom" ∧
    (∃ pre post, sentBody (processGet st0 reqGreet
      (CallBehavior.async (Except.error "boom"))).2 = pre ++ escape "boom" ++ post) :=
  C8_call_failure_500 st0 reqGreet "com.example.greet" tplHello [] "boom" (by decide)

/-- C9: a successful remote call whose template rendering raises is answered
with status 500 and an error body whose message names the text the result
type formats to and the render exception text, instead of the success path. -/
theorem C9_render_failure_500 (st : ResourceState) (req : Request)
    (p : String) (t : Template) (kw : List (String × String)) (r : WampResult) (exc : String)
    (h : findMatch st.routes "GET" req.path = MatchOutcome.matched p t kw)
    (hr : renderTemplate t r = Except.error exc) :
    sentStatus (processGet st req (CallBehavior.async (Except.ok r))).2 = 500 ∧
    sentBody (processGet st req (CallBehavior.async (Except.ok r))).2 =
      renderError ("WabResource render error for WAMP result of type \x22" ++
        typeNameOf r ++ "\x22: " ++ exc) := by
  have hh := handle_matched_ok (resolveSession st req.cookie).2.1
    (resolveSession st req.cookie).1 req p t kw r
    (by rw [resolve_state_routes]; exact h)
  have hs : afterCallSuccess t r =
      [Action.setResponseCode 500,
       Action.write (renderError ("WabResource render error for WAMP result of type \x22" ++
         typeNameOf r ++ "\x22: " ++ exc)),
       Action.finish] := by
    simp only [afterCallSuccess, hr]
  refine ⟨?_, ?_⟩
  · rw [processGet_acts, sentStatus_resolve, hh]
    simp [responseOf, finishActions, hs, sentStatus, sentStatusAux]
  · rw [processGet_acts, sentBody_resolve, hh]
    simp [responseOf, finishActions, hs, sentBody]

/-- C9 witness: a non-mapping result whose rendering raises `boom2` yields
status 500 and the error body naming the type text and the exception text. -/
theorem C9_witness :
    sentStatus (processGet st0 reqGreet (CallBehavior.async
      (Except.ok (WampResult.nonMapping "list" "boom2")))).2 = 500 ∧
    sentBody (processGet st0 reqGreet (CallBehavior.async
      (Except.ok (WampResult.nonMapping "list" "boom2")))).2 =
      renderError ("WabResource render error for WAMP result of type \x22" ++
        typeNameOf (WampResult.nonMapping "list" "boom2") ++ "\x22: " ++ "boom2") :=
  C9_render_failure_500 st0 reqGreet "com.example.greet" tplHello []
    (WampResult.nonMapping "list" "boom2") "boom2" (by decide) rfl

/-- C10 counterexample: a HEAD request — a method other than GET — DOES enter
the pipeline: twisted `Request.render` retries it as a fake GET because
`WapResource` defines only `render_GET`, so route matching succeeds, a
session is created and registered for the fresh token, and the remote call
is issued, refuting the claim that a request with any non-GET method never
enters the pipeline. -/
theorem C10_counterexample :
    callsOf (processRequest st0 reqHead cbErr).2 = [("com.example.greet", [])] ∧
    regsOf (processRequest st0 reqHead cbErr).2 = [(1, "realm1", "anonymous")] := by
  decide

/-- C10 amended: the dispatch pipeline is implemented solely as the GET
render handler, and twisted retries a HEAD request as a fake GET, so a
request with any method other than GET and HEAD never enters the pipeline —
the resource state is unchanged and no remote call and no session
registration happen, even for a route whose configured method is that other
method; twisted alone answers it with an error page. -/
theorem C10_only_get_head_enter (st : ResourceState) (req : Request) (cb : CallBehavior)
    (h1 : req.method ≠ "GET") (h2 : req.method ≠ "HEAD") :
    (processRequest st req cb).1 = st ∧
    callsOf (processRequest st req cb).2 = [] ∧
    regsOf (processRequest st req cb).2 = [] := by
  simp [processRequest, h1, h2, callsOf, regsOf]

/-- C10 witness: a POST request to the path of the configured POST route is
still not handled — no pipeline effects, state unchanged. -/
theorem C10_witness :
    (processRequest st0 reqPost cbErr).1 = st0 ∧
    callsOf (processRequest st0 reqPost cbErr).2 = [] ∧
    regsOf (processRequest st0 reqPost cbErr).2 = [] :=
  C10_only_get_head_enter st0 reqPost cbErr (by decide) (by decide)

end Wap
